import Mathlib

/-!
Shallow embedding of the auto-approve Telegram bot (`src/main.py`) and a
verification of the specification's claims about it.

External effects (Telegram RPC results) are modelled as explicit outcome
values supplied to the embedded functions: the approval call receives a
trace of successive `ApproveResult`s (one per attempt, because the source
retries by recursive self-call on `FloodWait`), and the direct-message
send receives a `DmResult`.  Each run records the RPC calls made, the
sleeps performed and the final in-memory state, so retry counts, state
mutation and suspension behaviour are all observable in theorems.
-/

/-- Model of the three module-level in-memory stores of `main.py` (lines
25-27): `USER_DATABASE : Set[int]`, `PENDING_REQUESTS :
Dict[Tuple[int, int], float]` (modelled as an association list from
(chat_id, user_id) to a timestamp) and `PROCESSED_CHATS : Set[int]`. -/
structure BotState where
  user_database : Finset ℤ
  pending_requests : List ((ℤ × ℤ) × Nat)
  processed_chats : Finset ℤ
deriving DecidableEq

/-- Result of one `approve_chat_join_request` RPC attempt.  `floodWait`
carries the wait in seconds (`FloodWait.value`).  In pyrogram both
permission errors (e.g. `ChatAdminRequired`) and other RPC failures are
subclasses of `RPCError` and land in the same `except RPCError` arm of
the source, so `permissionDenied` and `rpcError` are separate
constructors handled identically; `otherError` is any other exception
(the `except Exception` arm). -/
inductive ApproveResult where
  | ok
  | floodWait (seconds : Nat)
  | permissionDenied
  | rpcError
  | otherError
deriving DecidableEq

/-- Result of one `send_message` attempt in `send_welcome_dm`.
`unreachable` stands for `PeerIdInvalid`, `UserIsBlocked` or
`UserNotParticipant` (the unreachable-user class). -/
inductive DmResult where
  | ok
  | unreachable
  | floodWait (seconds : Nat)
  | otherError
deriving DecidableEq

/-- Observable outcome of `send_welcome_dm`: the boolean it returns, the
users it attempted to message (one entry per `send_message` call) and
the sleeps it performed, in order. -/
structure DmRun where
  success : Bool
  sendCalls : List ℤ
  sleeps : List Nat
deriving DecidableEq

/-- Embeds `send_welcome_dm` (src/main.py lines 144-172).  It makes one
`send_message` attempt; `PeerIdInvalid` / `UserIsBlocked` /
`UserNotParticipant` are caught and logged at debug level, and every
other exception — including `FloodWait`, for which this function has no
dedicated handler — is caught by the generic `except Exception` arm.
In every failure case the function just returns `False`: it performs no
sleep and no retry. -/
def send_welcome_dm (user_id : ℤ) : DmResult → DmRun
  | DmResult.ok => ⟨true, [user_id], []⟩
  | DmResult.unreachable => ⟨false, [user_id], []⟩
  | DmResult.floodWait _ => ⟨false, [user_id], []⟩
  | DmResult.otherError => ⟨false, [user_id], []⟩

/-- Observable outcome of one `approve_request_with_dm` invocation: the
boolean it returns, the final store state, the (chat, user) pairs of the
`approve_chat_join_request` calls made (in order), the users to whom a
welcome DM `send_message` call was made, and the sleeps performed. -/
structure ApprovalRun where
  success : Bool
  state : BotState
  approveCalls : List (ℤ × ℤ)
  dmCalls : List ℤ
  sleeps : List Nat
deriving DecidableEq

/-- Embeds `approve_request_with_dm` (src/main.py lines 176-199), driven
by the trace of successive approval-RPC outcomes.  On success the user
is added to `USER_DATABASE` and `send_welcome_dm` is called (its result
is ignored).  On `FloodWait` the source sleeps `fw.value` seconds and
then re-invokes itself recursively (line 191), so the embedding consumes
the next trace element.  On `RPCError` (which includes the
permission-denied class) or any other exception it returns `False`
without retrying and without mutating any store.  An exhausted trace is
an artefact of the embedding and yields a failure run with no calls. -/
def approve_request_with_dm (chat_id user_id : ℤ) (dm : DmResult) (st : BotState) :
    List ApproveResult → ApprovalRun
  | [] => ⟨false, st, [], [], []⟩
  | ApproveResult.ok :: _ =>
      let st1 : BotState := { st with user_database := insert user_id st.user_database }
      let d := send_welcome_dm user_id dm
      ⟨true, st1, [(chat_id, user_id)], d.sendCalls, d.sleeps⟩
  | ApproveResult.floodWait w :: rest =>
      let r := approve_request_with_dm chat_id user_id dm st rest
      ⟨r.success, r.state, (chat_id, user_id) :: r.approveCalls, r.dmCalls, w :: r.sleeps⟩
  | ApproveResult.permissionDenied :: _ => ⟨false, st, [(chat_id, user_id)], [], []⟩
  | ApproveResult.rpcError :: _ => ⟨false, st, [(chat_id, user_id)], [], []⟩
  | ApproveResult.otherError :: _ => ⟨false, st, [(chat_id, user_id)], [], []⟩

/-- A dialog as returned by `client.get_dialogs`: its chat id and its
chat type.  The source compares the type against the string literals
"channel" and "supergroup" (line 286), so the kind is modelled as the
string the comparison sees. -/
structure Dialog where
  chat_id : ℤ
  chat_type : String
deriving DecidableEq

/-- The dialog-enumeration branch of `pending_requests_cleaner` (lines
283-288): collect the chat ids of the dialogs whose type is "channel"
or "supergroup" into a set. -/
def dialog_scan (dialogs : List Dialog) : Finset ℤ :=
  ((dialogs.filter (fun d => d.chat_type == "channel" || d.chat_type == "supergroup")).map
    (fun d => d.chat_id)).toFinset

/-- Candidate chat set computed at the top of each
`pending_requests_cleaner` cycle (lines 276-290): if
`AUTO_APPROVE_CHAT_ID` is truthy (configured and nonzero — Python
`if AUTO_APPROVE_CHAT_ID:`), the set is exactly that chat; otherwise the
enumerated dialogs restricted to channel/supergroup kinds. -/
def chats_to_check (auto_approve_chat_id : Option ℤ) (dialogs : List Dialog) : Finset ℤ :=
  match auto_approve_chat_id with
  | some cid => if cid = 0 then dialog_scan dialogs else {cid}
  | none => dialog_scan dialogs

/-- Union of the candidate chat sets over `n` consecutive cleaner
cycles, where cycle `i` observes the dialog list `dialogsAt i`. -/
def sweep_candidates (auto_approve_chat_id : Option ℤ) (dialogsAt : Nat → List Dialog)
    (n : Nat) : Finset ℤ :=
  (Finset.range n).biUnion (fun i => chats_to_check auto_approve_chat_id (dialogsAt i))

/-- Observable outcome of a message-handler invocation that may or may
not reach the approval workflow: final state, the approval RPC calls
made, the DM sends made, and `handled = some b` when
`approve_request_with_dm` was invoked and returned `b`, `none` when the
handler returned before invoking it. -/
structure HandlerRun where
  state : BotState
  approveCalls : List (ℤ × ℤ)
  dmCalls : List ℤ
  handled : Option Bool
deriving DecidableEq

/-- The guard `if AUTO_APPROVE_CHAT_ID and chat.id != AUTO_APPROVE_CHAT_ID`
of `auto_approve` (line 378), with Python truthiness of the configured
id made explicit. -/
def restriction_blocks (auto_approve_chat_id : Option ℤ) (chat_id : ℤ) : Bool :=
  match auto_approve_chat_id with
  | some r => r != 0 && chat_id != r
  | none => false

/-- Embeds the live join-request handler `auto_approve` (src/main.py
lines 373-394): if a target chat is configured (truthy) and the
request's chat differs, return immediately; otherwise run
`approve_request_with_dm` on the request's chat and user. -/
def auto_approve (auto_approve_chat_id : Option ℤ) (chat_id user_id : ℤ) (dm : DmResult)
    (st : BotState) (trace : List ApproveResult) : HandlerRun :=
  if restriction_blocks auto_approve_chat_id chat_id then
    ⟨st, [], [], none⟩
  else
    let a := approve_request_with_dm chat_id user_id dm st trace
    ⟨a.state, a.approveCalls, a.dmCalls, some a.success⟩

/-- Embeds `manual_approve_handler` (src/main.py lines 397-428): reject
non-admin callers, require a target user (reply or argument), look the
user up with `get_users` (modelled by `user_lookup_ok`), then run
`approve_request_with_dm` on the message's own chat.  Note there is no
check of the configured target-chat restriction anywhere on this
path. -/
def manual_approve_handler (is_admin : Bool) (target_user_id : Option ℤ)
    (user_lookup_ok : Bool) (chat_id : ℤ) (dm : DmResult) (st : BotState)
    (trace : List ApproveResult) : HandlerRun :=
  if is_admin = false then ⟨st, [], [], none⟩
  else
    match target_user_id with
    | none => ⟨st, [], [], none⟩
    | some uid =>
      if user_lookup_ok = false then ⟨st, [], [], none⟩
      else
        let a := approve_request_with_dm chat_id uid dm st trace
        ⟨a.state, a.approveCalls, a.dmCalls, some a.success⟩

/-- Result of one `broadcast_message.copy(uid)` attempt.  `unreachable`
stands for the caught class `(UserIsBlocked, UserNotParticipant,
PeerIdInvalid, RPCError)` whose handler discards the user; `floodWait`
is caught first (before `RPCError`, its superclass) by its dedicated
arm. -/
inductive SendOutcome where
  | ok
  | floodWait (seconds : Nat)
  | unreachable
  | otherError
deriving DecidableEq

/-- Observable outcome of the broadcast send loop: the `sent` and
`failed` counters, the final `USER_DATABASE`, one `(uid, attempts)`
entry per target user recording how many copy calls were made to that
user, and the flood sleeps performed. -/
structure BroadcastRun where
  sent : Nat
  failed : Nat
  db : Finset ℤ
  attempts : List (ℤ × Nat)
  sleeps : List Nat
deriving DecidableEq

/-- Embeds the send loop of `broadcast_handler` (src/main.py lines
465-486), iterating a snapshot list of the user database.  `first u`
is the outcome of the first copy to `u`; on `FloodWait` the source
sleeps and retries exactly once, the retry's outcome being `retry u`
(any retry exception is counted as a failure with no removal).  An
`unreachable`-class first outcome discards the user from
`USER_DATABASE` and counts a failure; any other exception counts a
failure without removal. -/
def broadcast_loop (first retry : ℤ → SendOutcome) : List ℤ → Finset ℤ → BroadcastRun
  | [], db => ⟨0, 0, db, [], []⟩
  | uid :: rest, db =>
    match first uid with
    | SendOutcome.ok =>
        let r := broadcast_loop first retry rest db
        ⟨r.sent + 1, r.failed, r.db, (uid, 1) :: r.attempts, r.sleeps⟩
    | SendOutcome.floodWait w =>
        match retry uid with
        | SendOutcome.ok =>
            let r := broadcast_loop first retry rest db
            ⟨r.sent + 1, r.failed, r.db, (uid, 2) :: r.attempts, w :: r.sleeps⟩
        | _ =>
            let r := broadcast_loop first retry rest db
            ⟨r.sent, r.failed + 1, r.db, (uid, 2) :: r.attempts, w :: r.sleeps⟩
    | SendOutcome.unreachable =>
        let r := broadcast_loop first retry rest (db.erase uid)
        ⟨r.sent, r.failed + 1, r.db, (uid, 1) :: r.attempts, r.sleeps⟩
    | SendOutcome.otherError =>
        let r := broadcast_loop first retry rest db
        ⟨r.sent, r.failed + 1, r.db, (uid, 1) :: r.attempts, r.sleeps⟩

/-- How a `/broadcast` invocation terminated. -/
inductive BroadcastStatus where
  | disabled
  | rejected
  | needReply
  | completed
deriving DecidableEq

/-- Observable outcome of one `broadcast_handler` invocation. -/
structure BroadcastHandlerRun where
  status : BroadcastStatus
  sent : Nat
  failed : Nat
  db : Finset ℤ
  attempts : List (ℤ × Nat)
deriving DecidableEq

/-- Concrete enumeration of `USER_DATABASE` used to model the snapshot
`list(USER_DATABASE)` taken at line 467 (Python set iteration order is
unspecified; the sorted order is one admissible snapshot and the
results proved about it do not depend on the order). -/
def db_snapshot (db : Finset ℤ) : List ℤ :=
  db.sort (· ≤ ·)

/-- Embeds `broadcast_handler` (src/main.py lines 447-487): if
`DEVELOPER_ID` is falsy (unset, or zero by Python truthiness) the
feature is disabled; a caller other than the developer is rejected; a
missing reply message aborts; otherwise the send loop runs over a
snapshot of `USER_DATABASE`. -/
def broadcast_handler (developer_id : Option ℤ) (caller : ℤ) (has_reply : Bool)
    (first retry : ℤ → SendOutcome) (db : Finset ℤ) : BroadcastHandlerRun :=
  match developer_id with
  | none => ⟨BroadcastStatus.disabled, 0, 0, db, []⟩
  | some dev =>
    if dev = 0 then ⟨BroadcastStatus.disabled, 0, 0, db, []⟩
    else if caller ≠ dev then ⟨BroadcastStatus.rejected, 0, 0, db, []⟩
    else if has_reply = false then ⟨BroadcastStatus.needReply, 0, 0, db, []⟩
    else
      let r := broadcast_loop first retry (db_snapshot db) db
      ⟨BroadcastStatus.completed, r.sent, r.failed, r.db, r.attempts⟩

/-- Whether the first copy attempt to `u` fails with the
unreachable/RPC class that causes removal from `USER_DATABASE`. -/
def firstUnreachable (first : ℤ → SendOutcome) (u : ℤ) : Bool :=
  match first u with
  | SendOutcome.unreachable => true
  | _ => false

/-- Scenario predicate for the broadcast claim: the send to `u` either
succeeds immediately, rate-limits and then succeeds on the single
retry, or fails immediately with the unreachable class. -/
def goodBehavior (first retry : ℤ → SendOutcome) (u : ℤ) : Bool :=
  match first u with
  | SendOutcome.ok => true
  | SendOutcome.floodWait _ =>
      (match retry u with
       | SendOutcome.ok => true
       | _ => false)
  | SendOutcome.unreachable => true
  | SendOutcome.otherError => false

/-! ### Helper lemmas -/

/-- The welcome-DM sender never sleeps, for any outcome. -/
lemma send_welcome_dm_sleeps (user_id : ℤ) (dm : DmResult) :
    (send_welcome_dm user_id dm).sleeps = [] := by
  cases dm <;> rfl

/-- The welcome-DM sender makes exactly one send call, for any outcome. -/
lemma send_welcome_dm_sendCalls (user_id : ℤ) (dm : DmResult) :
    (send_welcome_dm user_id dm).sendCalls = [user_id] := by
  cases dm <;> rfl

/-- The approval workflow never touches `PENDING_REQUESTS`. -/
lemma approve_pending_invariant (chat_id user_id : ℤ) (dm : DmResult) (st : BotState) :
    ∀ trace, (approve_request_with_dm chat_id user_id dm st trace).state.pending_requests
      = st.pending_requests := by
  intro trace
  induction trace with
  | nil => rfl
  | cons h t ih =>
    cases h with
    | ok => rfl
    | floodWait w => exact ih
    | permissionDenied => rfl
    | rpcError => rfl
    | otherError => rfl

/-- The approval workflow never touches `PROCESSED_CHATS`. -/
lemma approve_processed_invariant (chat_id user_id : ℤ) (dm : DmResult) (st : BotState) :
    ∀ trace, (approve_request_with_dm chat_id user_id dm st trace).state.processed_chats
      = st.processed_chats := by
  intro trace
  induction trace with
  | nil => rfl
  | cons h t ih =>
    cases h with
    | ok => rfl
    | floodWait w => exact ih
    | permissionDenied => rfl
    | rpcError => rfl
    | otherError => rfl

/-! ### C1 -/

/-- C1 is false of the code: with the approval RPC answering
RateLimited(3) then RateLimited(5) then success, the recursive
`FloodWait` handler of `approve_request_with_dm` (line 191) makes a
third approval attempt after the rate-limited retry — where the claim
mandates at most one retry in total with failure propagated — and the
run succeeds, sleeping 3 then 5 seconds. -/
theorem c1_counterexample :
    2 < (approve_request_with_dm 1 2 DmResult.ok ⟨∅, [], ∅⟩
      [ApproveResult.floodWait 3, ApproveResult.floodWait 5, ApproveResult.ok]).approveCalls.length ∧
    (approve_request_with_dm 1 2 DmResult.ok ⟨∅, [], ∅⟩
      [ApproveResult.floodWait 3, ApproveResult.floodWait 5, ApproveResult.ok]).success = true ∧
    (approve_request_with_dm 1 2 DmResult.ok ⟨∅, [], ∅⟩
      [ApproveResult.floodWait 3, ApproveResult.floodWait 5, ApproveResult.ok]).sleeps = [3, 5] := by
  refine ⟨by decide, rfl, rfl⟩

/-- C1 amended: on every rate-limit signal the workflow suspends for the
indicated duration and retries, recursively and without any bound; for a
trace of rate limits with waits `ds` followed by a terminal outcome, it
performs exactly the sleeps `ds`, makes `ds.length + 1` approval
attempts, and succeeds exactly when the terminal outcome is success. -/
theorem c1_theorem (chat_id user_id : ℤ) (dm : DmResult) (st : BotState) (ds : List Nat)
    (final : ApproveResult) (hf : ∀ w, final ≠ ApproveResult.floodWait w) :
    (approve_request_with_dm chat_id user_id dm st
        (ds.map ApproveResult.floodWait ++ [final])).sleeps = ds ∧
    (approve_request_with_dm chat_id user_id dm st
        (ds.map ApproveResult.floodWait ++ [final])).approveCalls.length = ds.length + 1 ∧
    ((approve_request_with_dm chat_id user_id dm st
        (ds.map ApproveResult.floodWait ++ [final])).success = true ↔
      final = ApproveResult.ok) := by
  induction ds with
  | nil =>
    cases final with
    | ok => exact ⟨send_welcome_dm_sleeps user_id dm, rfl, by simp [approve_request_with_dm]⟩
    | floodWait w => exact absurd rfl (hf w)
    | permissionDenied => exact ⟨rfl, rfl, by simp [approve_request_with_dm]⟩
    | rpcError => exact ⟨rfl, rfl, by simp [approve_request_with_dm]⟩
    | otherError => exact ⟨rfl, rfl, by simp [approve_request_with_dm]⟩
  | cons d ds ih =>
    obtain ⟨ih1, ih2, ih3⟩ := ih
    refine ⟨?_, ?_, ?_⟩
    · simpa [approve_request_with_dm] using ih1
    · simpa [approve_request_with_dm] using ih2
    · simpa [approve_request_with_dm] using ih3

/-- Witness instantiating `c1_theorem` on the trace
RateLimited(3), RateLimited(5), success. -/
theorem c1_witness :
    (approve_request_with_dm 1 2 DmResult.ok ⟨∅, [], ∅⟩
        ([3, 5].map ApproveResult.floodWait ++ [ApproveResult.ok])).sleeps = [3, 5] ∧
    (approve_request_with_dm 1 2 DmResult.ok ⟨∅, [], ∅⟩
        ([3, 5].map ApproveResult.floodWait ++ [ApproveResult.ok])).approveCalls.length
      = [3, 5].length + 1 ∧
    ((approve_request_with_dm 1 2 DmResult.ok ⟨∅, [], ∅⟩
        ([3, 5].map ApproveResult.floodWait ++ [ApproveResult.ok])).success = true ↔
      ApproveResult.ok = ApproveResult.ok) :=
  c1_theorem 1 2 DmResult.ok ⟨∅, [], ∅⟩ [3, 5] ApproveResult.ok (fun _ h => nomatch h)

/-! ### C2 -/

/-- C2 is false of the code: `PENDING_REQUESTS` is declared (line 26)
but never written.  With the pair (1, 2) present in the ledger, a
successful approval leaves the entry in place instead of removing it;
and a failed approval starting from an empty ledger leaves it empty even
though the claim requires the entry to have been recorded first. -/
theorem c2_counterexample :
    (approve_request_with_dm 1 2 DmResult.ok ⟨∅, [((1, 2), 0)], ∅⟩
      [ApproveResult.ok]).success = true ∧
    (approve_request_with_dm 1 2 DmResult.ok ⟨∅, [((1, 2), 0)], ∅⟩
      [ApproveResult.ok]).state.pending_requests = [((1, 2), 0)] ∧
    (approve_request_with_dm 1 2 DmResult.ok ⟨∅, [], ∅⟩
      [ApproveResult.rpcError]).state.pending_requests = [] := by
  refine ⟨rfl, rfl, rfl⟩

/-- C2 amended: the Pending-Request Ledger (`PENDING_REQUESTS`) is
declared but never used — the workflow records no entry on invocation
and removes none on success, leaving the ledger (and `PROCESSED_CHATS`)
unchanged by every invocation; on successful approval only
`USER_DATABASE` is updated, with the user inserted idempotently. -/
theorem c2_theorem :
    (∀ (chat_id user_id : ℤ) (dm : DmResult) (st : BotState) (trace : List ApproveResult),
      (approve_request_with_dm chat_id user_id dm st trace).state.pending_requests
          = st.pending_requests ∧
      (approve_request_with_dm chat_id user_id dm st trace).state.processed_chats
          = st.processed_chats) ∧
    (∀ (chat_id user_id : ℤ) (dm : DmResult) (st : BotState) (rest : List ApproveResult),
      (approve_request_with_dm chat_id user_id dm st
          (ApproveResult.ok :: rest)).state.user_database = insert user_id st.user_database) := by
  refine ⟨fun c u dm st trace => ⟨?_, ?_⟩, fun c u dm st rest => rfl⟩
  · exact approve_pending_invariant c u dm st trace
  · exact approve_processed_invariant c u dm st trace

/-! ### C3 -/

/-- C3 confirmed: when the approval RPC fails with the permission-denied
class (an `RPCError` in the source, line 193), the workflow returns
failure after exactly one approval call (no retry), makes no DM attempt,
performs no sleep, and leaves the whole state — `USER_DATABASE`,
`PENDING_REQUESTS` and `PROCESSED_CHATS` — exactly as it was. -/
theorem c3_theorem (chat_id user_id : ℤ) (dm : DmResult) (st : BotState)
    (rest : List ApproveResult) :
    approve_request_with_dm chat_id user_id dm st (ApproveResult.permissionDenied :: rest)
      = ⟨false, st, [(chat_id, user_id)], [], []⟩ :=
  rfl

/-! ### C4 -/

/-- C4 confirmed: once the approval RPC succeeds the workflow returns
success and has inserted the user into `USER_DATABASE`, whatever the
welcome-DM outcome is (unreachable, rate-limited or any other failure);
the notification result is ignored and no store is reverted. -/
theorem c4_theorem (chat_id user_id : ℤ) (dm : DmResult) (st : BotState)
    (rest : List ApproveResult) :
    (approve_request_with_dm chat_id user_id dm st (ApproveResult.ok :: rest)).success = true ∧
    (approve_request_with_dm chat_id user_id dm st
        (ApproveResult.ok :: rest)).state.user_database = insert user_id st.user_database ∧
    (approve_request_with_dm chat_id user_id dm st
        (ApproveResult.ok :: rest)).state.pending_requests = st.pending_requests ∧
    (approve_request_with_dm chat_id user_id dm st
        (ApproveResult.ok :: rest)).approveCalls = [(chat_id, user_id)] :=
  ⟨rfl, rfl, rfl, rfl⟩

/-! ### C5 -/

/-- C5 is false of the code: `send_welcome_dm` has no `FloodWait`
handler — a rate-limit signal is swallowed by the generic
`except Exception` arm, so the notifier performs no sleep and makes no
retry (a single send call), where the claim requires a suspension for
the indicated duration followed by exactly one retry. -/
theorem c5_counterexample :
    (send_welcome_dm 5 (DmResult.floodWait 3)).sendCalls = [5] ∧
    (send_welcome_dm 5 (DmResult.floodWait 3)).sleeps = [] ∧
    (send_welcome_dm 5 (DmResult.floodWait 3)).success = false :=
  ⟨rfl, rfl, rfl⟩

/-- C5 amended: a rate-limited notification is handled like any other
unexpected notification failure — one send attempt, no suspension, no
retry, failure returned — and it does not affect the approval result:
the workflow still reports success and the user stays in
`USER_DATABASE`. -/
theorem c5_theorem :
    (∀ (user_id : ℤ) (w : Nat),
      send_welcome_dm user_id (DmResult.floodWait w) = ⟨false, [user_id], []⟩) ∧
    (∀ (chat_id user_id : ℤ) (w : Nat) (st : BotState) (rest : List ApproveResult),
      (approve_request_with_dm chat_id user_id (DmResult.floodWait w) st
          (ApproveResult.ok :: rest)).success = true ∧
      user_id ∈ (approve_request_with_dm chat_id user_id (DmResult.floodWait w) st
          (ApproveResult.ok :: rest)).state.user_database) := by
  refine ⟨fun u w => rfl, fun c u w st rest => ⟨rfl, ?_⟩⟩
  exact Finset.mem_insert_self u st.user_database

/-! ### C6 -/

/-- With a truthy configured chat, the candidate set of one cleaner
cycle is exactly that chat. -/
lemma chats_to_check_some_eq (r : ℤ) (dialogs : List Dialog) (hr : r ≠ 0) :
    chats_to_check (some r) dialogs = {r} := by
  simp [chats_to_check, hr]

/-- C6 confirmed: with a configured (nonzero) target chat the candidate
set of each `pending_requests_cleaner` cycle is exactly that chat, and
over any number of cycles no other chat ever becomes a candidate; with
no restriction, a chat is a candidate exactly when some enumerated
dialog has that id and kind "channel" or "supergroup" — every other
kind, such as private chats, is excluded. -/
theorem c6_theorem :
    (∀ (r : ℤ) (dialogs : List Dialog), r ≠ 0 → chats_to_check (some r) dialogs = {r}) ∧
    (∀ (r : ℤ) (dialogsAt : Nat → List Dialog) (n : Nat), r ≠ 0 →
      sweep_candidates (some r) dialogsAt n ⊆ {r}) ∧
    (∀ (dialogs : List Dialog) (x : ℤ),
      x ∈ chats_to_check none dialogs ↔
        ∃ d ∈ dialogs, (d.chat_type = "channel" ∨ d.chat_type = "supergroup") ∧
          d.chat_id = x) := by
  refine ⟨fun r dl hr => chats_to_check_some_eq r dl hr, ?_, ?_⟩
  · intro r dialogsAt n hr x hx
    rw [sweep_candidates, Finset.mem_biUnion] at hx
    obtain ⟨i, _, hmem⟩ := hx
    rwa [chats_to_check_some_eq r _ hr] at hmem
  · intro dialogs x
    simp only [chats_to_check, dialog_scan, List.mem_toFinset, List.mem_map, List.mem_filter,
      Bool.or_eq_true, beq_iff_eq]
    constructor
    · rintro ⟨d, ⟨hd, hk⟩, hx⟩
      exact ⟨d, hd, hk, hx⟩
    · rintro ⟨d, hd, hk, hx⟩
      exact ⟨d, ⟨hd, hk⟩, hx⟩

/-- Witness instantiating `c6_theorem`: a configured chat 77 over three
cycles, and the spec scenario of a channel, a private chat and a
supergroup with the restriction unset. -/
theorem c6_witness :
    chats_to_check (some 77) [⟨10, "channel"⟩] = {77} ∧
    sweep_candidates (some 77) (fun _ => [⟨10, "channel"⟩, ⟨20, "private"⟩]) 3 ⊆ {77} ∧
    ((10 : ℤ) ∈ chats_to_check none [⟨10, "channel"⟩, ⟨20, "private"⟩, ⟨30, "supergroup"⟩] ↔
      ∃ d ∈ [(⟨10, "channel"⟩ : Dialog), ⟨20, "private"⟩, ⟨30, "supergroup"⟩],
        (d.chat_type = "channel" ∨ d.chat_type = "supergroup") ∧ d.chat_id = 10) :=
  ⟨c6_theorem.1 77 _ (by decide), c6_theorem.2.1 77 _ 3 (by decide), c6_theorem.2.2 _ 10⟩

/-! ### C7 -/

/-- A live join request for a chat other than the truthy configured one
is discarded with no state change and no RPC call. -/
lemma auto_approve_skips (r chat_id user_id : ℤ) (dm : DmResult) (st : BotState)
    (trace : List ApproveResult) (hr : r ≠ 0) (hc : chat_id ≠ r) :
    auto_approve (some r) chat_id user_id dm st trace = ⟨st, [], [], none⟩ := by
  have hb : restriction_blocks (some r) chat_id = true := by
    simp [restriction_blocks, hr, hc]
  simp [auto_approve, hb]

/-- C7 confirmed: a live join request whose chat differs from the
configured (nonzero) target chat is discarded silently by
`auto_approve` — the state (`USER_DATABASE`, `PENDING_REQUESTS`,
`PROCESSED_CHATS`) is returned unchanged, no approval RPC is made, no
DM is attempted, and the approval workflow is never invoked. -/
theorem c7_theorem (r chat_id user_id : ℤ) (dm : DmResult) (st : BotState)
    (trace : List ApproveResult) (hr : r ≠ 0) (hc : chat_id ≠ r) :
    auto_approve (some r) chat_id user_id dm st trace = ⟨st, [], [], none⟩ :=
  auto_approve_skips r chat_id user_id dm st trace hr hc

/-- Witness instantiating `c7_theorem` at chat 6 with configured chat 5. -/
theorem c7_witness :
    auto_approve (some 5) 6 7 DmResult.ok ⟨∅, [], ∅⟩ [ApproveResult.ok]
      = ⟨(⟨∅, [], ∅⟩ : BotState), [], [], none⟩ :=
  c7_theorem 5 6 7 DmResult.ok ⟨∅, [], ∅⟩ [ApproveResult.ok] (by decide) (by decide)

/-! ### C9 -/

/-- C9 confirmed: with no `DEVELOPER_ID` configured (or a falsy zero
one) the broadcast command is disabled, and with a caller different from
the configured developer it is rejected — in each case before any send:
the sent and failed counters are zero, no copy call is made, and
`USER_DATABASE` is unchanged. -/
theorem c9_theorem :
    (∀ (caller : ℤ) (has_reply : Bool) (first retry : ℤ → SendOutcome) (db : Finset ℤ),
      broadcast_handler none caller has_reply first retry db
        = ⟨BroadcastStatus.disabled, 0, 0, db, []⟩) ∧
    (∀ (caller : ℤ) (has_reply : Bool) (first retry : ℤ → SendOutcome) (db : Finset ℤ),
      broadcast_handler (some 0) caller has_reply first retry db
        = ⟨BroadcastStatus.disabled, 0, 0, db, []⟩) ∧
    (∀ (dev caller : ℤ) (has_reply : Bool) (first retry : ℤ → SendOutcome) (db : Finset ℤ),
      dev ≠ 0 → caller ≠ dev →
      broadcast_handler (some dev) caller has_reply first retry db
        = ⟨BroadcastStatus.rejected, 0, 0, db, []⟩) := by
  refine ⟨fun _ _ _ _ _ => rfl, fun _ _ _ _ _ => by simp [broadcast_handler], ?_⟩
  intro dev caller has_reply first retry db hdev hcal
  simp [broadcast_handler, hdev, hcal]

/-- Witness instantiating `c9_theorem`: caller 8 against developer 9,
and an unset developer id. -/
theorem c9_witness :
    broadcast_handler (some 9) 8 true (fun _ => SendOutcome.ok) (fun _ => SendOutcome.ok)
        ({1, 2} : Finset ℤ) = ⟨BroadcastStatus.rejected, 0, 0, {1, 2}, []⟩ ∧
    broadcast_handler none 8 true (fun _ => SendOutcome.ok) (fun _ => SendOutcome.ok)
        ({1, 2} : Finset ℤ) = ⟨BroadcastStatus.disabled, 0, 0, {1, 2}, []⟩ :=
  ⟨c9_theorem.2.2 9 8 true _ _ _ (by decide) (by decide), c9_theorem.1 8 true _ _ _⟩

/-! ### C10 -/

/-- C10 confirmed: the manual `/approve` path checks only admin status,
never the configured target-chat restriction — for any configured
(nonzero) chat `r` and a group chat different from `r`, the handler
still invokes the approval workflow on that chat and on success inserts
the user into `USER_DATABASE`, while the live handler `auto_approve`
would have discarded a join request for the same chat. -/
theorem c10_theorem (r chat_id user_id : ℤ) (dm : DmResult) (st : BotState)
    (hr : r ≠ 0) (hc : chat_id ≠ r) :
    (manual_approve_handler true (some user_id) true chat_id dm st
        [ApproveResult.ok]).handled = some true ∧
    (manual_approve_handler true (some user_id) true chat_id dm st
        [ApproveResult.ok]).approveCalls = [(chat_id, user_id)] ∧
    (manual_approve_handler true (some user_id) true chat_id dm st
        [ApproveResult.ok]).state.user_database = insert user_id st.user_database ∧
    auto_approve (some r) chat_id user_id dm st [ApproveResult.ok] = ⟨st, [], [], none⟩ :=
  ⟨rfl, rfl, rfl, auto_approve_skips r chat_id user_id dm st [ApproveResult.ok] hr hc⟩

/-- Witness instantiating `c10_theorem`: manual approval of user 7 in
chat 6 while the configured chat is 5. -/
theorem c10_witness :
    (manual_approve_handler true (some 7) true 6 DmResult.ok ⟨∅, [], ∅⟩
        [ApproveResult.ok]).handled = some true ∧
    (manual_approve_handler true (some 7) true 6 DmResult.ok ⟨∅, [], ∅⟩
        [ApproveResult.ok]).approveCalls = [(6, 7)] ∧
    (manual_approve_handler true (some 7) true 6 DmResult.ok ⟨∅, [], ∅⟩
        [ApproveResult.ok]).state.user_database = insert 7 (∅ : Finset ℤ) ∧
    auto_approve (some 5) 6 7 DmResult.ok ⟨∅, [], ∅⟩ [ApproveResult.ok]
      = ⟨(⟨∅, [], ∅⟩ : BotState), [], [], none⟩ :=
  c10_theorem 5 6 7 DmResult.ok ⟨∅, [], ∅⟩ (by decide) (by decide)

/-! ### C8 -/

/-- Set-difference over an inserted element, in erase form. -/
lemma sdiff_insert_eq_erase_sdiff (db s : Finset ℤ) (u : ℤ) :
    db \ insert u s = db.erase u \ s := by
  ext x
  simp only [Finset.mem_sdiff, Finset.mem_erase, Finset.mem_insert, not_or]
  tauto

/-- The broadcast loop removes from `USER_DATABASE` exactly the users of
the snapshot whose first copy attempt fails with the unreachable
class. -/
lemma broadcast_loop_db (first retry : ℤ → SendOutcome) :
    ∀ (l : List ℤ) (db : Finset ℤ),
      (broadcast_loop first retry l db).db
        = db \ (l.filter (fun u => firstUnreachable first u)).toFinset := by
  intro l
  induction l with
  | nil => intro db; simp [broadcast_loop]
  | cons u rest ih =>
    intro db
    cases hu : first u with
    | ok =>
      simp [broadcast_loop, hu, List.filter_cons, firstUnreachable, ih]
    | floodWait w =>
      cases hr : retry u <;>
        simp [broadcast_loop, hu, hr, List.filter_cons, firstUnreachable, ih]
    | unreachable =>
      simp only [broadcast_loop, hu, ih, List.filter_cons, firstUnreachable,
        if_pos, List.toFinset_cons]
      rw [sdiff_insert_eq_erase_sdiff]
    | otherError =>
      simp [broadcast_loop, hu, List.filter_cons, firstUnreachable, ih]

/-- Under the C8 scenario (every send succeeds, rate-limits once and
then succeeds, or is unreachable at once), the loop counts as sent
exactly the non-unreachable users and as failed exactly the unreachable
ones. -/
lemma broadcast_loop_counts (first retry : ℤ → SendOutcome) :
    ∀ (l : List ℤ) (db : Finset ℤ), (∀ u ∈ l, goodBehavior first retry u = true) →
      (broadcast_loop first retry l db).sent
          = l.countP (fun u => !(firstUnreachable first u)) ∧
      (broadcast_loop first retry l db).failed
          = l.countP (fun u => firstUnreachable first u) := by
  intro l
  induction l with
  | nil => intro db _; simp [broadcast_loop]
  | cons u rest ih =>
    intro db h
    have hu' := h u (List.mem_cons_self u rest)
    have hrest : ∀ v ∈ rest, goodBehavior first retry v = true :=
      fun v hv => h v (List.mem_cons_of_mem u hv)
    cases hu : first u with
    | ok =>
      obtain ⟨ih1, ih2⟩ := ih db hrest
      constructor <;> simp [broadcast_loop, hu, List.countP_cons, firstUnreachable, ih1, ih2]
    | floodWait w =>
      cases hr : retry u with
      | ok =>
        obtain ⟨ih1, ih2⟩ := ih db hrest
        constructor <;> simp [broadcast_loop, hu, hr, List.countP_cons, firstUnreachable, ih1, ih2]
      | floodWait w2 => simp [goodBehavior, hu, hr] at hu'
      | unreachable => simp [goodBehavior, hu, hr] at hu'
      | otherError => simp [goodBehavior, hu, hr] at hu'
    | unreachable =>
      obtain ⟨ih1, ih2⟩ := ih (db.erase u) hrest
      constructor <;> simp [broadcast_loop, hu, List.countP_cons, firstUnreachable, ih1, ih2]
    | otherError => simp [goodBehavior, hu] at hu'

/-- Every user of the snapshot whose first copy attempt rate-limits is
logged with exactly two copy attempts: the original and the single
retry. -/
lemma broadcast_loop_attempts (first retry : ℤ → SendOutcome) :
    ∀ (l : List ℤ) (db : Finset ℤ) (u : ℤ) (w : Nat),
      u ∈ l → first u = SendOutcome.floodWait w →
      (u, 2) ∈ (broadcast_loop first retry l db).attempts := by
  intro l
  induction l with
  | nil => intro db u w hu _; simp at hu
  | cons v rest ih =>
    intro db u w hu hw
    rcases List.mem_cons.mp hu with rfl | hmem
    · cases hr : retry u <;> simp [broadcast_loop, hw, hr]
    · cases hv : first v with
      | ok =>
        simp only [broadcast_loop, hv]
        exact List.mem_cons_of_mem _ (ih db u w hmem hw)
      | floodWait w2 =>
        cases hr : retry v <;>
          · simp only [broadcast_loop, hv, hr]
            exact List.mem_cons_of_mem _ (ih db u w hmem hw)
      | unreachable =>
        simp only [broadcast_loop, hv]
        exact List.mem_cons_of_mem _ (ih (db.erase v) u w hmem hw)
      | otherError =>
        simp only [broadcast_loop, hv]
        exact List.mem_cons_of_mem _ (ih db u w hmem hw)

/-- Counting a predicate and its negation over a list covers it. -/
lemma countP_not_add (p : ℤ → Bool) :
    ∀ l : List ℤ, l.countP (fun u => !(p u)) + l.countP p = l.length := by
  intro l
  induction l with
  | nil => simp
  | cons u rest ih => cases hp : p u <;> simp [List.countP_cons, hp] <;> omega

/-- Filtering the snapshot and filtering the set agree. -/
lemma snapshot_filter_toFinset (db : Finset ℤ) (q : ℤ → Bool) :
    ((db_snapshot db).filter q).toFinset = db.filter (fun x => q x = true) := by
  ext x
  simp [db_snapshot, List.mem_toFinset, List.mem_filter, Finset.mem_sort, Finset.mem_filter]

/-- Counting over the snapshot equals the cardinality of the filtered
set. -/
lemma snapshot_countP (db : Finset ℤ) (q : ℤ → Bool) :
    (db_snapshot db).countP q = (db.filter (fun x => q x = true)).card := by
  have hnd : ((db_snapshot db).filter q).Nodup := (Finset.sort_nodup _ db).filter q
  rw [List.countP_eq_length_filter, ← snapshot_filter_toFinset db q,
    List.toFinset_card_of_nodup hnd]

/-- The snapshot enumerates the whole database. -/
lemma snapshot_length (db : Finset ℤ) : (db_snapshot db).length = db.card :=
  Finset.length_sort _

/-- C8 confirmed: for a broadcast by the authorized developer over a
tracked set of size `K = db.card` in which `M` sends fail with the
unreachable class on first attempt and every other send succeeds
(possibly after the single rate-limit retry), the run completes with
`sent = K - M`, the tracked set afterwards has exactly `K - M` users
(each unreachable user removed), and every rate-limited user was
attempted exactly twice — one retry before any failure would be
recorded. -/
theorem c8_theorem (dev : ℤ) (first retry : ℤ → SendOutcome) (db : Finset ℤ)
    (hdev : dev ≠ 0) (hgood : ∀ u ∈ db, goodBehavior first retry u = true) :
    (broadcast_handler (some dev) dev true first retry db).status
        = BroadcastStatus.completed ∧
    (broadcast_handler (some dev) dev true first retry db).sent
        = db.card - (db.filter (fun u => firstUnreachable first u = true)).card ∧
    (broadcast_handler (some dev) dev true first retry db).db.card
        = db.card - (db.filter (fun u => firstUnreachable first u = true)).card ∧
    (∀ u w, u ∈ db → first u = SendOutcome.floodWait w →
      (u, 2) ∈ (broadcast_handler (some dev) dev true first retry db).attempts) := by
  have hrun : broadcast_handler (some dev) dev true first retry db
      = ⟨BroadcastStatus.completed,
          (broadcast_loop first retry (db_snapshot db) db).sent,
          (broadcast_loop first retry (db_snapshot db) db).failed,
          (broadcast_loop first retry (db_snapshot db) db).db,
          (broadcast_loop first retry (db_snapshot db) db).attempts⟩ := by
    simp [broadcast_handler, hdev]
  have hgoodL : ∀ u ∈ db_snapshot db, goodBehavior first retry u = true := by
    intro u hu
    exact hgood u (by simpa [db_snapshot, Finset.mem_sort] using hu)
  obtain ⟨hsent, _⟩ := broadcast_loop_counts first retry (db_snapshot db) db hgoodL
  have hdb := broadcast_loop_db first retry (db_snapshot db) db
  have hM : (db_snapshot db).countP (fun u => firstUnreachable first u)
      = (db.filter (fun u => firstUnreachable first u = true)).card :=
    snapshot_countP db _
  have hsplit := countP_not_add (fun u => firstUnreachable first u) (db_snapshot db)
  have hlen := snapshot_length db
  have hsub : db.filter (fun u => firstUnreachable first u = true) ⊆ db :=
    Finset.filter_subset _ db
  refine ⟨by rw [hrun], ?_, ?_, ?_⟩
  · rw [hrun]
    show (broadcast_loop first retry (db_snapshot db) db).sent = _
    rw [hsent]
    omega
  · rw [hrun]
    show (broadcast_loop first retry (db_snapshot db) db).db.card = _
    rw [hdb, snapshot_filter_toFinset, Finset.card_sdiff hsub]
  · intro u w hu hw
    rw [hrun]
    show (u, 2) ∈ (broadcast_loop first retry (db_snapshot db) db).attempts
    exact broadcast_loop_attempts first retry (db_snapshot db) db u w
      (by simpa [db_snapshot, Finset.mem_sort] using hu) hw

/-- First-attempt outcomes for the C8 witness broadcast: user 2 is
unreachable, user 3 rate-limits, user 1 succeeds. -/
def bfirst : ℤ → SendOutcome :=
  fun u => if u = 2 then SendOutcome.unreachable
    else if u = 3 then SendOutcome.floodWait 2 else SendOutcome.ok

/-- Retry outcomes for the C8 witness broadcast: every retry succeeds. -/
def bretry : ℤ → SendOutcome :=
  fun _ => SendOutcome.ok

/-- Witness instantiating `c8_theorem`: developer 9 broadcasting over
the tracked set of three users `{1, 2, 3}` with user 2 unreachable and
user 3 rate-limited once. -/
theorem c8_witness :
    (broadcast_handler (some 9) 9 true bfirst bretry ({1, 2, 3} : Finset ℤ)).status
        = BroadcastStatus.completed ∧
    (broadcast_handler (some 9) 9 true bfirst bretry ({1, 2, 3} : Finset ℤ)).sent
        = ({1, 2, 3} : Finset ℤ).card
          - (({1, 2, 3} : Finset ℤ).filter (fun u => firstUnreachable bfirst u = true)).card ∧
    (broadcast_handler (some 9) 9 true bfirst bretry ({1, 2, 3} : Finset ℤ)).db.card
        = ({1, 2, 3} : Finset ℤ).card
          - (({1, 2, 3} : Finset ℤ).filter (fun u => firstUnreachable bfirst u = true)).card ∧
    (∀ u w, u ∈ ({1, 2, 3} : Finset ℤ) → bfirst u = SendOutcome.floodWait w →
      (u, 2) ∈ (broadcast_handler (some 9) 9 true bfirst bretry ({1, 2, 3} : Finset ℤ)).attempts) :=
  c8_theorem 9 bfirst bretry {1, 2, 3} (by decide) (by decide)
